import Mathlib

/-!
Verification of the OOTS bridge end-to-end test harness.

This file gives a shallow embedding, in Lean 4, of the core subsystems of the
repository and proves properties of them:

* the JSON document model and the dotted-path accessor `getNestedValue`
  (src/scripts/validate.ts and src/scripts/upload-pmode.sh share this
  function verbatim);
* the field validation engine `validateFields` (src/scripts/validate.ts);
* the behaviour-configurable mock EMREX provider
  (src/mocks/mock-emrex-provider.ts): the `/emrex` redirect endpoint
  (`invoke`) and the `/test/behavior` control endpoint (`setBehavior`);
* the path-coverage scenario runner (the TypeScript test runner embedded in
  src/scripts/upload-pmode.sh): the scenario catalog `testPaths`, the
  log-query fallback of `runTest`, the log validation `validateLogs`, and the
  top-level loop of `main`.

External effects (HTTP, Elasticsearch, the wall clock, thrown exceptions) are
modelled explicitly: Elasticsearch is an oracle function from queries to
results, fallible steps return `Except String`, and the outcome of an
endpoint invocation is a value of an inductive type recording both the reply
to the caller and the outbound calls performed.
-/

/-! ## JSON document model

Log records retrieved from Elasticsearch are JSON documents (`any` in the
TypeScript sources).  `JValue` models the JSON values that occur.  JavaScript
number values are modelled as integers; the documents compared by the scripts
carry only string, boolean and integer leaves.
-/

inductive JValue where
  | str (s : String)
  | num (n : Int)
  | bool (b : Bool)
  | null
  | arr (xs : List JValue)
  | obj (fields : List (String × JValue))

/-- JavaScript `path.split(".")` on the character list of the path:
splitting on `.` keeps empty segments and maps the empty string to `[""]`. -/
def splitCharsOnDot : List Char → List String
  | [] => [""]
  | c :: cs =>
    let rest := splitCharsOnDot cs
    if c = '.' then "" :: rest
    else match rest with
      | [] => [String.singleton c]
      | r :: rs => (String.singleton c ++ r) :: rs

/-- JavaScript `path.split(".")`. -/
def splitOnDot (s : String) : List String := splitCharsOnDot s.data

/-- Property lookup on a JSON object: first binding of the key wins
(JavaScript objects have unique keys; the list models their entries). -/
def lookupField : List (String × JValue) → String → Option JValue
  | [], _ => none
  | (k, v) :: rest, key => if k = key then some v else lookupField rest key

/-- A key string indexes a JavaScript array exactly when it is the canonical
decimal rendering of a natural number. -/
def natKey (k : String) : Option Nat :=
  match k.toNat? with
  | some n => if toString n = k then some n else none
  | none => none

/-- One step of the reduction `(o, k) => o?.[k]`: optional chaining yields
`undefined` (here `none`) on `undefined`/`null`/non-indexable receivers and
on missing properties. -/
def stepKey (o : Option JValue) (k : String) : Option JValue :=
  match o with
  | none => none
  | some (JValue.obj fields) => lookupField fields k
  | some (JValue.arr xs) =>
    match natKey k with
    | some n => xs.get? n
    | none => none
  | some _ => none

/-- The function `getNestedValue(obj, path)` of src/scripts/validate.ts and
src/scripts/upload-pmode.sh (identical in both):
`path.split(".").reduce((o, k) => o?.[k], obj)`. -/
def getNestedValue (obj : Option JValue) (path : String) : Option JValue :=
  (splitOnDot path).foldl stepKey obj

/-! ## Canonical serialization (JSON.stringify)

`validateFields` compares values via `JSON.stringify`.  `stringify` renders a
`JValue` the way `JSON.stringify` renders the corresponding JavaScript value
(object keys in insertion order, no whitespace).
-/

/-- JSON escaping of a single character inside a string literal. -/
def escapeChar (c : Char) : String :=
  if c = '"' then "\\\""
  else if c = '\\' then "\\\\"
  else if c = '\n' then "\\n"
  else if c = '\r' then "\\r"
  else if c = '\t' then "\\t"
  else String.singleton c

/-- JSON rendering of a string literal. -/
def quoteString (s : String) : String :=
  "\"" ++ String.join (s.data.map escapeChar) ++ "\""

mutual

/-- JSON.stringify of a JSON value. -/
def stringify : JValue → String
  | .str s => quoteString s
  | .num n => toString n
  | .bool b => cond b "true" "false"
  | .null => "null"
  | .arr xs => "[" ++ stringifyArr xs ++ "]"
  | .obj fs => "\x7b" ++ stringifyObj fs ++ "\x7d"

/-- JSON.stringify of the comma-separated elements of an array. -/
def stringifyArr : List JValue → String
  | [] => ""
  | [x] => stringify x
  | x :: y :: rest => stringify x ++ "," ++ stringifyArr (y :: rest)

/-- JSON.stringify of the comma-separated members of an object. -/
def stringifyObj : List (String × JValue) → String
  | [] => ""
  | [(k, v)] => quoteString k ++ ":" ++ stringify v
  | (k, v) :: p :: rest => quoteString k ++ ":" ++ stringify v ++ "," ++ stringifyObj (p :: rest)

end

/-! ## Field validation engine (src/scripts/validate.ts)

`validateFields(doc, expected)` walks the entries of the expectation map in
order and collects one error line per violated entry.  An expectation value
of `undefined` (here `none`) asserts absence of the field.
-/

/-- The error lines contributed by a single entry of the expectation map in
`validateFields` of src/scripts/validate.ts: expected `undefined` asserts
absence; a missing actual value is reported as missing; two present values
are compared by `JSON.stringify` and a mismatch message carries both sides. -/
def entryErrors (doc : JValue) (path : String) (expectedValue : Option JValue) : List String :=
  match expectedValue, getNestedValue (some doc) path with
  | none, some a => [path ++ ": expected undefined, got " ++ stringify a]
  | none, none => []
  | some e, none => [path ++ ": missing (expected " ++ stringify e ++ ")"]
  | some e, some a =>
    if stringify a = stringify e then []
    else [path ++ ": expected " ++ stringify e ++ ", got " ++ stringify a]

/-- The function `validateFields(doc, expected)` of src/scripts/validate.ts:
the concatenation, in entry order, of the error lines of every entry of the
expectation map. -/
def validateFields (doc : JValue) : List (String × Option JValue) → List String
  | [] => []
  | (path, ev) :: rest => entryErrors doc path ev ++ validateFields doc rest

/-- Modelled from the spec: a record satisfies one entry of the expectation
map when an absent expected value meets an absent actual value, or both
values are present and equal under canonical serialization. -/
def satisfiesEntry (doc : JValue) (path : String) (expectedValue : Option JValue) : Bool :=
  match expectedValue, getNestedValue (some doc) path with
  | none, none => true
  | none, some _ => false
  | some _, none => false
  | some e, some a => stringify a = stringify e

/-- Modelled from the spec: a record fully satisfies the expectation map when
it satisfies every entry. -/
def satisfiesExpectation (doc : JValue) (expected : List (String × Option JValue)) : Bool :=
  expected.all fun pe => satisfiesEntry doc pe.1 pe.2
/-- The `sampleElmo` template literal of src/mocks/mock-emrex-provider.ts, verbatim. -/
def sampleElmo : String :=
  "<?xml version=\"1.0\" encoding=\"UTF-8\"?>\n<elmo xmlns=\"https://github.com/emrex-eu/elmo-schemas/tree/v1\"\n      xmlns:xsi=\"http://www.w3.org/2001/XMLSchema-instance\">\n  <generatedDate>2025-01-09T10:00:00Z</generatedDate>\n  <learner>\n    <citizenship>NL</citizenship>\n    <identifier type=\"nationalIdentifier\">BSN123456789</identifier>\n    <givenNames>Jonas</givenNames>\n    <familyName>Smith</familyName>\n    <bday>1999-03-01</bday>\n  </learner>\n  <report>\n    <issuer>\n      <identifier type=\"schac\">urn:schac:personalUniqueCode:nl:local:universityX</identifier>\n      <title xml:lang=\"en\">University X</title>\n      <url>https://universityx.nl</url>\n    </issuer>\n    <learningOpportunitySpecification>\n      <identifier type=\"local\">DEGREE-001</identifier>\n      <title xml:lang=\"en\">Bachelor of Science in Computer Science</title>\n      <type>Degree Programme</type>\n      <iscedCode>0613</iscedCode>\n      <specifies>\n        <learningOpportunityInstance>\n          <start>2017-09-01</start>\n          <date>2021-06-30</date>\n          <status>passed</status>\n          <resultLabel>Cum Laude</resultLabel>\n          <credit>\n            <scheme>ects</scheme>\n            <value>180</value>\n          </credit>\n        </learningOpportunityInstance>\n      </specifies>\n    </learningOpportunitySpecification>\n    <issueDate>2021-06-30T00:00:00Z</issueDate>\n  </report>\n  <attachment>\n    <type>Diploma</type>\n    <content>JVBERi0xLjQKJeLjz9MKMSAwIG9iago8PC9UeXBlL0NhdGFsb2cvUGFnZXMgMiAwIFI+PgplbmRvYmoKMiAwIG9iago8PC9UeXBlL1BhZ2VzL0tpZHNbMyAwIFJdL0NvdW50IDE+PgplbmRvYmoKMyAwIG9iago8PC9UeXBlL1BhZ2UvTWVkaWFCb3hbMCAwIDYxMiA3OTJdL1BhcmVudCAyIDAgUi9SZXNvdXJjZXM8PD4+Pj4KZW5kb2JqCnhyZWYKMCA0CjAwMDAwMDAwMDAgNjU1MzUgZiAKMDAwMDAwMDAxNSAwMDAwMCBuIAowMDAwMDAwMDY4IDAwMDAwIG4gCjAwMDAwMDAxMjUgMDAwMDAgbiAKdHJhaWxlcgo8PC9TaXplIDQvUm9vdCAxIDAgUj4+CnN0YXJ0eHJlZgoyMjMKJSVFT0Y=</content>\n  </attachment>\n</elmo>"

/-- The `invalidElmoXml` template literal of src/mocks/mock-emrex-provider.ts, verbatim. -/
def invalidElmoXml : String :=
  "<?xml version=\"1.0\" encoding=\"UTF-8\"?>\n<elmo xmlns=\"https://github.com/emrex-eu/elmo-schemas/tree/v1\">\n  <generatedDate>2025-01-14T10:00:00Z</generatedDate>\n  <learner>\n    <givenNames>Jonas</givenNames>\n    <familyName>Smith</familyName>\n    <bday>1999-03-01</bday>\n  </learner>\n  <report>\n    <issuer>\n      <identifier type=\"schac\">invalid</identifier>\n      <country>NL</country>\n    </issuer>\n  </report>\n</elmo>"

/-- The `mismatchedIdentityElmo` template literal of src/mocks/mock-emrex-provider.ts, verbatim. -/
def mismatchedIdentityElmo : String :=
  "<?xml version=\"1.0\" encoding=\"UTF-8\"?>\n<elmo xmlns=\"https://github.com/emrex-eu/elmo-schemas/tree/v1\"\n      xmlns:xsi=\"http://www.w3.org/2001/XMLSchema-instance\">\n  <generatedDate>2025-01-14T10:00:00Z</generatedDate>\n  <learner>\n    <citizenship>NL</citizenship>\n    <identifier type=\"nationalIdentifier\">BSN999999999</identifier>\n    <givenNames>WrongFirstName</givenNames>\n    <familyName>WrongLastName</familyName>\n    <bday>1985-12-25</bday>\n  </learner>\n  <report>\n    <issuer>\n      <identifier type=\"schac\">urn:schac:personalUniqueCode:nl:local:universityX</identifier>\n      <title xml:lang=\"en\">University X</title>\n      <url>https://universityx.nl</url>\n    </issuer>\n    <learningOpportunitySpecification>\n      <identifier type=\"local\">DEGREE-002</identifier>\n      <title xml:lang=\"en\">Bachelor of Arts</title>\n      <type>Degree Programme</type>\n      <iscedCode>0613</iscedCode>\n      <specifies>\n        <learningOpportunityInstance>\n          <start>2017-09-01</start>\n          <date>2021-06-30</date>\n          <status>passed</status>\n          <credit>\n            <scheme>ects</scheme>\n            <value>180</value>\n          </credit>\n        </learningOpportunityInstance>\n      </specifies>\n    </learningOpportunitySpecification>\n    <issueDate>2021-06-30T00:00:00Z</issueDate>\n  </report>\n</elmo>"
/-! ## Mock EMREX provider (src/mocks/mock-emrex-provider.ts)

The simulator holds one process-wide mutable pair `(behavior, responseDelay)`.
The `/emrex` endpoint (`invoke` below) reads it; the `/test/behavior`
endpoint (`setBehavior` below) updates it.
-/

/-- The union type `BehaviorMode` of src/mocks/mock-emrex-provider.ts. -/
inductive BehaviorMode where
  | success
  | error
  | timeout
  | no_records
  | cancel
  | invalid_gzip
  | invalid_xml
  | identity_mismatch
  deriving DecidableEq, Repr

/-- JavaScript `s.includes(sub)`. -/
def stringIncludes (s sub : String) : Bool :=
  decide (sub.data <:+: s.data)

/-- JavaScript `s.replace(pat, rep)` with a string pattern replaces only the
first occurrence, over character lists. -/
def replaceFirstChars (rep pat : List Char) : List Char → List Char
  | [] => if pat.isPrefixOf ([] : List Char) then rep else []
  | c :: cs =>
    if pat.isPrefixOf (c :: cs) then rep ++ (c :: cs).drop pat.length
    else c :: replaceFirstChars rep pat cs

/-- JavaScript `s.replace(pat, rep)` with a string pattern. -/
def jsReplaceFirst (s pat rep : String) : String :=
  ⟨replaceFirstChars rep.data pat.data s.data⟩

/-- The default of the `BRIDGE_STORE_URL` environment variable in
src/mocks/mock-emrex-provider.ts. -/
def defaultBridgeStoreUrl : String := "http://localhost:3003/store"

/-- The function `rewriteUrlForDocker(url)` of src/mocks/mock-emrex-provider.ts,
parameterised by the `BRIDGE_STORE_URL` environment value it consults. -/
def rewriteUrlForDocker (bridgeStoreUrl url : String) : String :=
  if stringIncludes bridgeStoreUrl "bridge-proxy" then
    jsReplaceFirst
      (jsReplaceFirst url "http://localhost:3003" "https://bridge-proxy:443")
      "https://localhost:3443" "https://bridge-proxy:443"
  else if stringIncludes bridgeStoreUrl "oots-bridge" then
    jsReplaceFirst url "localhost:3003" "oots-bridge:3003"
  else url

/-- The payload field `elmo` of the callback body: the code either gzips a
document and base64-encodes the compressed bytes (`zlib.gzipSync(...)
.toString("base64")`), or base64-encodes raw bytes without compressing
(the `invalid_gzip` branch).  Compression is an external library call and is
recorded symbolically together with the exact source document. -/
inductive ElmoData where
  | gzipBase64 (content : String)
  | plainBase64 (content : String)
  deriving DecidableEq, Repr

/-- One outbound `POST` of the mock provider to the (docker-rewritten) return
address: the form-encoded body built by `new URLSearchParams(...)` carries
`sessionId`, `returnCode`, and the optional `elmo` and `returnMessage`
fields. -/
structure Callback where
  targetUrl : String
  sessionId : String
  returnCode : String
  elmo : Option ElmoData
  returnMessage : Option String
  deriving DecidableEq, Repr

/-- The `Content-Type` header set by `httpPost` on every callback. -/
def callbackContentType : String := "application/x-www-form-urlencoded"

/-- The observable outcome of one invocation of the `GET /emrex` handler:
a synchronous 400 reply without callback, the hang-forever branch
(`return new Promise(() => ...)`), or exactly one outbound callback followed
by a reply to the caller (the HTML page, or 500 when the callback target was
unreachable). -/
inductive InvokeResult where
  | missingParams
  | hang
  | responded (cb : Callback)
  deriving DecidableEq, Repr

/-- The outbound callbacks performed by an invocation. -/
def outboundCalls : InvokeResult → List Callback
  | .missingParams => []
  | .hang => []
  | .responded cb => [cb]

/-- Whether the invocation ever produces a response to its caller. -/
def resolves : InvokeResult → Bool
  | .missingParams => true
  | .hang => false
  | .responded _ => true

/-- The error body of the synchronous 400 reply, when one is sent. -/
def badRequestError : InvokeResult → Option String
  | .missingParams => some "Missing sessionId or returnUrl"
  | .hang => none
  | .responded _ => none

/-- The `switch (behavior)` of the `GET /emrex` handler on the non-timeout
modes: result code, optional `elmo` payload and optional `returnMessage`.
The `default` arm of the switch is unreachable for the eight declared modes
and `timeout` returns before the switch; both map to the `default` values
here. -/
def synthesize : BehaviorMode → String × Option ElmoData × Option String
  | .success => ("NCP_OK", some (.gzipBase64 sampleElmo), none)
  | .error => ("NCP_ERROR", none, some "An error occurred at the EMREX provider")
  | .no_records => ("NCP_NO_RESULTS", none, some "No matching records found for this learner")
  | .cancel => ("NCP_CANCEL", none, some "User cancelled the EMREX flow")
  | .invalid_gzip => ("NCP_OK", some (.plainBase64 "this is not gzipped data"), none)
  | .invalid_xml => ("NCP_OK", some (.gzipBase64 invalidElmoXml), none)
  | .identity_mismatch => ("NCP_OK", some (.gzipBase64 mismatchedIdentityElmo), none)
  | .timeout => ("NCP_OK", none, none)

/-- The `GET /emrex` handler of src/mocks/mock-emrex-provider.ts.  Query
parameters are `Option String` (`none` for an absent parameter); the guard
`if (!sessionId || !returnUrl)` treats both `undefined` and the empty string
as missing.  `responseDelay` only delays the callback and does not affect
the outcome, so it is carried but unused.  The structured log lines emitted
to stdout are not modelled. -/
def invoke (bridgeStoreUrl : String) (behavior : BehaviorMode) (responseDelay : Nat)
    (sessionId returnUrl : Option String) : InvokeResult :=
  match sessionId, returnUrl with
  | some sid, some ru =>
    if sid = "" ∨ ru = "" then .missingParams
    else if behavior = .timeout then .hang
    else
      let (returnCode, elmoData, returnMessage) := synthesize behavior
      .responded
        { targetUrl := rewriteUrlForDocker bridgeStoreUrl ru
          sessionId := sid
          returnCode := returnCode
          elmo := elmoData
          returnMessage := returnMessage }
  | _, _ => .missingParams

/-- The process-wide mutable state of the simulator. -/
structure SimState where
  behavior : BehaviorMode
  responseDelay : Int
  deriving DecidableEq, Repr

/-- The `validModes.includes(mode)` check of the `POST /test/behavior`
handler, combined with the cast to `BehaviorMode`: recognised enumerator
strings map to their mode, everything else to `none`. -/
def modeOfString : String → Option BehaviorMode
  | "success" => some .success
  | "error" => some .error
  | "timeout" => some .timeout
  | "no_records" => some .no_records
  | "cancel" => some .cancel
  | "invalid_gzip" => some .invalid_gzip
  | "invalid_xml" => some .invalid_xml
  | "identity_mismatch" => some .identity_mismatch
  | _ => none

/-- The `POST /test/behavior` handler of src/mocks/mock-emrex-provider.ts:
a recognised `mode` string replaces the stored behavior (the guard
`if (mode && validModes.includes(mode))`; an unrecognised or absent mode
leaves it unchanged), a numeric `delay` replaces the stored delay, and the
reply is always the now-current `(behavior, responseDelay)` pair — the
handler has no error reply. -/
def setBehavior (st : SimState) (mode : Option String) (delay : Option Int) :
    SimState × (BehaviorMode × Int) :=
  let st1 :=
    match mode.bind modeOfString with
    | some m => { st with behavior := m }
    | none => st
  let st2 :=
    match delay with
    | some d => { st1 with responseDelay := d }
    | none => st1
  (st2, (st2.behavior, st2.responseDelay))
/-! ## Scenario runner (the test runner of src/scripts/upload-pmode.sh)

The runner drives the protocol, waits, retrieves log records from
Elasticsearch and validates them.  Elasticsearch itself is external: it is
modelled as an oracle from queries to results.  Wall-clock sleeps only
consume time and are not modelled; the polling loop of
`getLogsByConversationId` is collapsed into a single oracle consultation
whose answer is the final outcome of the poll.
-/

/-- The `ExpectedLog` interface: `logger` ranges over the strings
`APP`/`EXT`/`OOTS`, `outcome` over `success`/`failure`; absent optional
fields are `none`/`[]`/`false`. -/
structure ExpectedLog where
  eventAction : String
  logger : Option String := none
  outcome : Option String := none
  requiredFields : List String := []
  optional : Bool := false
  deriving DecidableEq, Repr

/-- The `TestPath` interface.  The `trigger` and optional `setup` members are
effectful procedures; their outcomes are supplied to the runner through
`RunEnv` below, so the catalog entry carries only its data fields. -/
structure TestPath where
  id : Nat
  name : String
  description : String
  emrexBehavior : Option String := none
  possibilityForPreview : Option Bool := none
  withPreviewLocation : Option Bool := none
  expectedLogs : List ExpectedLog
  waitTime : Option Nat := none
  deriving DecidableEq, Repr

/-- The `TestResult` interface.  `duration` is wall-clock time and is not
modelled; it is rendered as `0`. -/
structure TestResult where
  path : String
  description : String
  passed : Bool
  errors : List String
  logsFound : List String
  duration : Nat
  deriving DecidableEq, Repr

/-- The two Elasticsearch queries the runner issues:
`getLogsByConversationId(conversationId, waitMs)` (a term query on
`oots.conversation.id`, polled within the wait budget) and
`getLogsByEventAction(eventAction, afterTimestamp, limit)` (a term query on
`event.action` range-restricted to `@timestamp >= afterTimestamp`). -/
inductive EsQuery where
  | byConversationId (conversationId : String) (waitMs : Nat)
  | byEventAction (eventAction : String) (afterTimestamp : String) (limit : Nat)
  deriving DecidableEq, Repr

/-- The fallback loop of `runTest`:
`for (const expected of path.expectedLogs.slice(0, 3))`, issuing one
`getLogsByEventAction` per iterated entry and concatenating each non-empty
result onto the accumulated logs.  The queries issued are recorded. -/
def fallbackLoop (es : EsQuery → Except String (List JValue)) (beforeTs : String) :
    List ExpectedLog → List JValue → List EsQuery → Except String (List JValue × List EsQuery)
  | [], logs, queries => .ok (logs, queries)
  | exp :: rest, logs, queries => do
    let q := EsQuery.byEventAction exp.eventAction beforeTs 5
    let byAction ← es q
    fallbackLoop es beforeTs rest
      (if byAction.length > 0 then logs ++ byAction else logs) (queries ++ [q])

/-- The QUERIED step of `runTest`: query by conversation id (wait budget
5000 ms); when the result is still empty, fall back to one
`getLogsByEventAction` per entry of `path.expectedLogs.slice(0, 3)`, scoped
to the `beforeTimestamp` captured before the trigger ran, merging results.
Returns the retrieved records together with the queries issued. -/
def queriedStep (es : EsQuery → Except String (List JValue)) (conversationId beforeTs : String)
    (expectedLogs : List ExpectedLog) : Except String (List JValue × List EsQuery) := do
  let q0 := EsQuery.byConversationId conversationId 5000
  let logs ← es q0
  if logs.length = 0 then
    fallbackLoop es beforeTs (expectedLogs.take 3) logs [q0]
  else
    .ok (logs, [q0])

/-- The predicate of `logs.find(...)` in `validateLogs`: the record matches
when its `event.action` equals the expected action and, when specified, its
`log.logger` and `event.outcome` equal the expected ones. -/
def matchesExpected (exp : ExpectedLog) (log : JValue) : Bool :=
  (match getNestedValue (some log) "event.action" with
   | some (.str a) => a = exp.eventAction
   | _ => false) &&
  (match exp.logger with
   | none => true
   | some l =>
     match getNestedValue (some log) "log.logger" with
     | some (.str s) => s = l
     | _ => false) &&
  (match exp.outcome with
   | none => true
   | some oc =>
     match getNestedValue (some log) "event.outcome" with
     | some (.str s) => s = oc
     | _ => false)

/-- The `found`/`errors` pair returned by `validateLogs`. -/
structure ValidationOutcome where
  found : List String
  errors : List String
  deriving DecidableEq, Repr

/-- The function `validateLogs(logs, expected)` of the runner: for each
expected entry, find the first matching record; record its action in
`found` and report each absent required field, or report the whole entry as
missing unless it is optional. -/
def validateLogs (logs : List JValue) : List ExpectedLog → ValidationOutcome
  | [] => { found := [], errors := [] }
  | exp :: rest =>
    let r := validateLogs logs rest
    match logs.find? (matchesExpected exp) with
    | some log =>
      let fieldErrors :=
        (exp.requiredFields.filter fun f => (getNestedValue (some log) f).isNone).map
          fun f => exp.eventAction ++ ": missing required field \x27" ++ f ++ "\x27"
      { found := exp.eventAction :: r.found, errors := fieldErrors ++ r.errors }
    | none =>
      if exp.optional then r
      else
        { found := r.found
          errors := ("Missing log: " ++ exp.eventAction ++ " (logger: " ++
            exp.logger.getD "any" ++ ", outcome: " ++ exp.outcome.getD "any" ++ ")") :: r.errors }

/-- The identifiers freshly generated by `generateIds()` for one run. -/
structure Ids where
  queryId : String
  messageId : String
  conversationId : String
  deriving DecidableEq, Repr

/-- The environment of one `runTest` execution: the generated identifiers,
the timestamp captured immediately before the trigger, the outcomes of the
effectful `setup` (a no-op `Except.ok ()` when the path declares none) and
`trigger` procedures, and the Elasticsearch oracle.  A thrown JavaScript
exception is an `Except.error` carrying `String(error)`. -/
structure RunEnv where
  ids : Ids
  beforeTimestamp : String
  setupResult : Except String Unit
  triggerResult : Except String Unit
  es : EsQuery → Except String (List JValue)

/-- The body of the `try` block of `runTest`: setup, trigger, then the
QUERIED step.  Any step may throw; the first error aborts the block. -/
def runTestSteps (path : TestPath) (env : RunEnv) : Except String (List JValue × List EsQuery) := do
  let _ ← env.setupResult
  let _ ← env.triggerResult
  queriedStep env.es env.ids.conversationId env.beforeTimestamp path.expectedLogs

/-- The function `runTest(path)` of the runner: the `try` block builds the
result from `validateLogs`; the `catch` converts the thrown value into a
single-element error list with `passed: false`. -/
def runTest (path : TestPath) (env : RunEnv) : TestResult :=
  match runTestSteps path env with
  | .error e =>
    { path := "Path " ++ toString path.id ++ ": " ++ path.name
      description := path.description
      passed := false
      errors := [e]
      logsFound := []
      duration := 0 }
  | .ok (logs, _) =>
    let validation := validateLogs logs path.expectedLogs
    { path := "Path " ++ toString path.id ++ ": " ++ path.name
      description := path.description
      passed := validation.errors.length = 0
      errors := validation.errors
      logsFound := validation.found
      duration := 0 }

/-- The scenario loop of `main()`: every selected path is run in order and
contributes exactly one `TestResult`.  (The behavior reset
`setMockEmrexBehavior(path.emrexBehavior || "success")` before each run is
an outbound HTTP call and does not affect the result value.) -/
def runAll (paths : List TestPath) (envOf : TestPath → RunEnv) : List TestResult :=
  paths.map fun p => runTest p (envOf p)

/-- The aggregate tally of `main()`: results with `passed` true. -/
def passedCount (results : List TestResult) : Nat :=
  (results.filter fun r => r.passed).length

/-- The aggregate tally of `main()`: results with `passed` false. -/
def failedCount (results : List TestResult) : Nat :=
  (results.filter fun r => !r.passed).length

/-- The process exit code of `main()`: `failed > 0 ? 1 : 0`. -/
def exitCode (results : List TestResult) : Nat :=
  if failedCount results > 0 then 1 else 0
/-- The scenario catalog `testPaths` of src/scripts/upload-pmode.sh: the data
fields of every entry, in source order. -/
def testPaths : List TestPath := [
  { id := 1
    name := "Happy Path (Preview Required)"
    description := "Initial request without PreviewLocation → Preview Required response"
    expectedLogs := [
      { eventAction := "domibus_message_retrieval_started", logger := some "APP", outcome := some "success" },
      { eventAction := "domibus_message_retrieval_completed", logger := some "APP", outcome := some "success" },
      { eventAction := "oots_request_xml_validation_completed", logger := some "APP", outcome := some "success" },
      { eventAction := "oots_request_schematron_validation_completed", logger := some "APP", outcome := some "success" },
      { eventAction := "evidence_request_received", outcome := some "success",
        requiredFields := ["oots.message.id", "oots.conversation.id"] },
      { eventAction := "evidence_response_sent", requiredFields := ["oots.response.result"] },
      { eventAction := "domibus_message_submission_started", logger := some "APP" },
      { eventAction := "domibus_message_submission_completed", logger := some "APP", outcome := some "success" },
      { eventAction := "message_processing_completed", logger := some "APP", outcome := some "success" }]
    waitTime := some 20000 },
  { id := 2
    name := "Happy Path (Evidence Delivered)"
    description := "Request with PreviewLocation → User consents → Evidence delivered"
    emrexBehavior := some "success"
    withPreviewLocation := some true
    expectedLogs := [
      { eventAction := "domibus_message_retrieval_started", logger := some "APP" },
      { eventAction := "domibus_message_retrieval_completed", logger := some "APP", outcome := some "success" },
      { eventAction := "oots_request_xml_validation_completed", logger := some "APP", outcome := some "success" },
      { eventAction := "oots_request_schematron_validation_completed", logger := some "APP", outcome := some "success" },
      { eventAction := "evidence_request_received" },
      { eventAction := "user_redirected_to_emrex", logger := some "EXT", outcome := some "success" },
      { eventAction := "emrex_response_received", logger := some "EXT", outcome := some "success" },
      { eventAction := "emrex_xml_validation_completed", logger := some "APP", outcome := some "success", optional := true },
      { eventAction := "elm_converter_request_sent", logger := some "EXT", optional := true },
      { eventAction := "elm_converter_request_completed", logger := some "EXT", optional := true },
      { eventAction := "evidence_response_sent" },
      { eventAction := "domibus_message_submission_completed", logger := some "APP", outcome := some "success" }]
    waitTime := some 30000 },
  { id := 6
    name := "EMREX User Cancellation"
    description := "User cancels in EMREX portal → NCP_CANCEL → Error response"
    emrexBehavior := some "cancel"
    withPreviewLocation := some true
    expectedLogs := [
      { eventAction := "evidence_request_received" },
      { eventAction := "user_redirected_to_emrex", logger := some "EXT", outcome := some "success" },
      { eventAction := "emrex_response_received", logger := some "EXT" },
      { eventAction := "evidence_response_sent", outcome := some "failure" }]
    waitTime := some 25000 },
  { id := 7
    name := "EMREX Provider Error"
    description := "EMREX returns NCP_ERROR → Error response"
    emrexBehavior := some "error"
    withPreviewLocation := some true
    expectedLogs := [
      { eventAction := "evidence_request_received" },
      { eventAction := "emrex_response_received", logger := some "EXT" },
      { eventAction := "evidence_response_sent", outcome := some "failure" }]
    waitTime := some 25000 },
  { id := 8
    name := "EMREX No Results"
    description := "EMREX returns NCP_NO_RESULTS → Error response"
    emrexBehavior := some "no_records"
    withPreviewLocation := some true
    expectedLogs := [
      { eventAction := "evidence_request_received" },
      { eventAction := "emrex_response_received", logger := some "EXT" },
      { eventAction := "evidence_response_sent", outcome := some "failure" }]
    waitTime := some 25000 },
  { id := 9
    name := "EMREX Invalid GZIP"
    description := "EMREX returns invalid gzip data → Decode error → Error response"
    emrexBehavior := some "invalid_gzip"
    withPreviewLocation := some true
    expectedLogs := [
      { eventAction := "evidence_request_received" },
      { eventAction := "emrex_response_received", logger := some "EXT" },
      { eventAction := "emrex_decompression_failed", logger := some "APP", outcome := some "failure", optional := true },
      { eventAction := "evidence_response_sent", outcome := some "failure" }]
    waitTime := some 25000 },
  { id := 10
    name := "EMREX Invalid XML"
    description := "EMREX returns XML that fails schema validation → Error response"
    emrexBehavior := some "invalid_xml"
    withPreviewLocation := some true
    expectedLogs := [
      { eventAction := "evidence_request_received" },
      { eventAction := "emrex_response_received", logger := some "EXT" },
      { eventAction := "emrex_xml_validation_completed", logger := some "APP", outcome := some "failure" },
      { eventAction := "evidence_response_sent", outcome := some "failure" }]
    waitTime := some 25000 },
  { id := 11
    name := "EMREX Identity Mismatch"
    description := "EMREX returns data for different person → Identity mismatch error"
    emrexBehavior := some "identity_mismatch"
    withPreviewLocation := some true
    expectedLogs := [
      { eventAction := "evidence_request_received" },
      { eventAction := "emrex_response_received", logger := some "EXT" },
      { eventAction := "emrex_identity_matching_completed", logger := some "APP", outcome := some "failure" },
      { eventAction := "evidence_response_sent", outcome := some "failure" }]
    waitTime := some 25000 },
  { id := 12
    name := "Session Timeout"
    description := "User takes too long → Session expires → Timeout log emitted"
    withPreviewLocation := some true
    expectedLogs := [
      { eventAction := "evidence_request_received" },
      { eventAction := "user_redirected_to_emrex", logger := some "EXT", outcome := some "success" },
      { eventAction := "session_timeout", logger := some "APP", optional := true }]
    waitTime := some 15000 }]
/-! ## Concrete inputs used by witnesses -/

/-- An Elasticsearch oracle that answers every query with the empty hit
list (nothing indexed yet). -/
def emptyEs : EsQuery → Except String (List JValue) := fun _ => Except.ok []

/-- A run environment whose trigger throws: the oracle finds nothing, setup
is the no-op, and the trigger rejects with a JavaScript error rendered by
`String(error)`. -/
def throwingEnv : RunEnv :=
  { ids := { queryId := "urn:uuid:q-0", messageId := "m-0@domibus.eu", conversationId := "conv-0" }
    beforeTimestamp := "2026-01-01T00:00:00.000Z"
    setupResult := Except.ok ()
    triggerResult := Except.error "Error: connect ECONNREFUSED"
    es := emptyEs }

/-! ## Theorems -/

theorem stepKey_none (k : String) : stepKey none k = none := rfl

theorem foldl_stepKey_none : ∀ l : List String, l.foldl stepKey none = none
  | [] => rfl
  | _ :: rest => by rw [List.foldl_cons, stepKey_none]; exact foldl_stepKey_none rest

/-- C8: getNestedValue is a pure total accessor resolving dotted paths by
sequential key lookup, yielding `undefined` (none) on any missing segment
without throwing: once a segment is missing the rest of the reduction stays
`undefined`; `getNestedValue {a:{b:{c:1}}} "a.b.c" = 1`;
`getNestedValue {a:{}} "a.b.c" = undefined`; and a record storing the
literal dotted string `"a.b.c"` as a single top-level key yields `undefined`
for that path. -/
theorem getNestedValue_dotted_path_examples :
    (∀ path : String, getNestedValue none path = none) ∧
    getNestedValue
      (some (JValue.obj [("a", JValue.obj [("b", JValue.obj [("c", JValue.num 1)])])]))
      "a.b.c" = some (JValue.num 1) ∧
    getNestedValue (some (JValue.obj [("a", JValue.obj [])])) "a.b.c" = none ∧
    getNestedValue (some (JValue.obj [("a.b.c", JValue.num 1)])) "a.b.c" = none :=
  ⟨fun _ => foldl_stepKey_none _, rfl, rfl, rfl⟩

theorem entryErrors_eq_nil_iff (doc : JValue) (path : String) (ev : Option JValue) :
    entryErrors doc path ev = [] ↔ satisfiesEntry doc path ev = true := by
  unfold entryErrors satisfiesEntry
  cases ev <;> cases hget : getNestedValue (some doc) path <;> simp

/-- C5: validateFields returns the empty error list iff the record fully
satisfies the expectation map; the empty map is vacuously satisfied; and an
entry expecting `undefined` at `a.b` yields the empty list exactly when the
field at that dotted path is absent. -/
theorem validateFields_empty_iff_satisfies :
    (∀ (doc : JValue) (expected : List (String × Option JValue)),
      validateFields doc expected = [] ↔ satisfiesExpectation doc expected = true) ∧
    (∀ doc : JValue, validateFields doc [] = []) ∧
    (∀ doc : JValue,
      validateFields doc [("a.b", none)] = [] ↔ getNestedValue (some doc) "a.b" = none) := by
  have main : ∀ (doc : JValue) (expected : List (String × Option JValue)),
      validateFields doc expected = [] ↔ satisfiesExpectation doc expected = true := by
    intro doc expected
    induction expected with
    | nil => simp [validateFields, satisfiesExpectation]
    | cons pe rest ih =>
      obtain ⟨path, ev⟩ := pe
      simp only [validateFields, satisfiesExpectation, List.all_cons, List.append_eq_nil,
        Bool.and_eq_true] at ih ⊢
      rw [entryErrors_eq_nil_iff, ih]
  refine ⟨main, fun doc => rfl, fun doc => ?_⟩
  rw [main]
  simp only [satisfiesExpectation, List.all_cons, List.all_nil, Bool.and_true]
  unfold satisfiesEntry
  cases hget : getNestedValue (some doc) "a.b" <;> simp
/-- C6: when both the expected and the actual value at a dotted path are
defined, validateFields compares them by canonical serialization
(JSON.stringify): serialization-equal values produce no mismatch, and
serialization-unequal values produce exactly one mismatch message carrying
both sides. -/
theorem validateFields_compares_by_canonical_serialization (doc : JValue) (path : String)
    (e a : JValue) (ha : getNestedValue (some doc) path = some a) :
    (stringify a = stringify e → validateFields doc [(path, some e)] = []) ∧
    (stringify a ≠ stringify e →
      validateFields doc [(path, some e)] =
        [path ++ ": expected " ++ stringify e ++ ", got " ++ stringify a]) := by
  constructor <;> intro h <;> simp [validateFields, entryErrors, ha, h]

/-- Witness for C6 at a concrete record: the record `{k: 1}` matches the
expectation `{k: 1}` with no errors and mismatches the expectation `{k: 2}`
with the two-sided message. -/
theorem validateFields_compares_by_canonical_serialization_witness :
    getNestedValue (some (JValue.obj [("k", JValue.num 1)])) "k" = some (JValue.num 1) ∧
    validateFields (JValue.obj [("k", JValue.num 1)]) [("k", some (JValue.num 1))] = [] ∧
    validateFields (JValue.obj [("k", JValue.num 1)]) [("k", some (JValue.num 2))] =
      ["k" ++ ": expected " ++ stringify (JValue.num 2) ++ ", got " ++ stringify (JValue.num 1)] := by
  refine ⟨rfl,
    (validateFields_compares_by_canonical_serialization (JValue.obj [("k", JValue.num 1)]) "k"
      (JValue.num 1) (JValue.num 1) rfl).1 rfl,
    (validateFields_compares_by_canonical_serialization (JValue.obj [("k", JValue.num 1)]) "k"
      (JValue.num 2) (JValue.num 1) rfl).2 ?_⟩
  simp only [stringify]
  decide
theorem rewriteUrlForDocker_default (url : String) :
    rewriteUrlForDocker defaultBridgeStoreUrl url = url := by
  unfold rewriteUrlForDocker
  rw [(by decide : stringIncludes defaultBridgeStoreUrl "bridge-proxy" = false)]
  rw [(by decide : stringIncludes defaultBridgeStoreUrl "oots-bridge" = false)]
  simp

theorem invoke_nontimeout_eq (bridgeStoreUrl : String) (mode : BehaviorMode) (delay : Nat)
    (sid ru : String) (hmode : mode ≠ BehaviorMode.timeout) (hsid : sid ≠ "") (hru : ru ≠ "") :
    invoke bridgeStoreUrl mode delay (some sid) (some ru) =
      InvokeResult.responded
        { targetUrl := rewriteUrlForDocker bridgeStoreUrl ru
          sessionId := sid
          returnCode := (synthesize mode).1
          elmo := (synthesize mode).2.1
          returnMessage := (synthesize mode).2.2 } := by
  simp [invoke, hsid, hru, hmode]

set_option maxRecDepth 10000 in
/-- C1: for every behavior mode except timeout, invoking the redirect
endpoint with both parameters present performs exactly one outbound
form-encoded POST to the (docker-rewritten) return address — under the
default environment the return address itself — carrying the session id and
the mode-specified result code, with the payload of the mode table:
success ships OK (`NCP_OK`) with the well-formed sample document compressed;
error/no_records/cancel ship their error codes with an advisory message
only; invalid_gzip ships OK with uncompressed bytes in the slot the bridge
will try to decompress; invalid_xml ships OK with the schema-invalid
document compressed; identity_mismatch ships OK with the compressed
document describing a different identity than the sample. -/
theorem invoke_nontimeout_exactly_one_callback (bridgeStoreUrl : String) (mode : BehaviorMode)
    (delay : Nat) (sid ru : String) (hmode : mode ≠ BehaviorMode.timeout)
    (hsid : sid ≠ "") (hru : ru ≠ "") :
    ∃ cb : Callback,
      invoke bridgeStoreUrl mode delay (some sid) (some ru) = InvokeResult.responded cb ∧
      outboundCalls (invoke bridgeStoreUrl mode delay (some sid) (some ru)) = [cb] ∧
      cb.sessionId = sid ∧
      cb.targetUrl = rewriteUrlForDocker bridgeStoreUrl ru ∧
      (bridgeStoreUrl = defaultBridgeStoreUrl → cb.targetUrl = ru) ∧
      (mode = BehaviorMode.success → cb.returnCode = "NCP_OK" ∧
        cb.elmo = some (ElmoData.gzipBase64 sampleElmo) ∧ cb.returnMessage = none) ∧
      (mode = BehaviorMode.error → cb.returnCode = "NCP_ERROR" ∧ cb.elmo = none ∧
        cb.returnMessage = some "An error occurred at the EMREX provider") ∧
      (mode = BehaviorMode.no_records → cb.returnCode = "NCP_NO_RESULTS" ∧ cb.elmo = none ∧
        cb.returnMessage = some "No matching records found for this learner") ∧
      (mode = BehaviorMode.cancel → cb.returnCode = "NCP_CANCEL" ∧ cb.elmo = none ∧
        cb.returnMessage = some "User cancelled the EMREX flow") ∧
      (mode = BehaviorMode.invalid_gzip → cb.returnCode = "NCP_OK" ∧
        cb.elmo = some (ElmoData.plainBase64 "this is not gzipped data") ∧
        cb.returnMessage = none) ∧
      (mode = BehaviorMode.invalid_xml → cb.returnCode = "NCP_OK" ∧
        cb.elmo = some (ElmoData.gzipBase64 invalidElmoXml) ∧ cb.returnMessage = none) ∧
      (mode = BehaviorMode.identity_mismatch → cb.returnCode = "NCP_OK" ∧
        cb.elmo = some (ElmoData.gzipBase64 mismatchedIdentityElmo) ∧ cb.returnMessage = none) ∧
      mismatchedIdentityElmo ≠ sampleElmo := by
  refine ⟨_, invoke_nontimeout_eq bridgeStoreUrl mode delay sid ru hmode hsid hru,
    ?_, ?_, ?_, ?_, ?_, ?_, ?_, ?_, ?_, ?_, ?_, ?_⟩
  · rw [invoke_nontimeout_eq bridgeStoreUrl mode delay sid ru hmode hsid hru]
    rfl
  · rfl
  · rfl
  · intro hdef; rw [hdef]; exact rewriteUrlForDocker_default ru
  · rintro rfl; exact ⟨rfl, rfl, rfl⟩
  · rintro rfl; exact ⟨rfl, rfl, rfl⟩
  · rintro rfl; exact ⟨rfl, rfl, rfl⟩
  · rintro rfl; exact ⟨rfl, rfl, rfl⟩
  · rintro rfl; exact ⟨rfl, rfl, rfl⟩
  · rintro rfl; exact ⟨rfl, rfl, rfl⟩
  · rintro rfl; exact ⟨rfl, rfl, rfl⟩
  · decide
set_option maxRecDepth 10000 in
/-- Witness for C1 at mode `success`, the default environment and concrete
parameters. -/
theorem invoke_nontimeout_exactly_one_callback_witness :
    BehaviorMode.success ≠ BehaviorMode.timeout ∧ "sess-1" ≠ "" ∧
    "http://localhost:3003/store" ≠ "" ∧
    ∃ cb : Callback,
      invoke defaultBridgeStoreUrl BehaviorMode.success 0 (some "sess-1")
        (some "http://localhost:3003/store") = InvokeResult.responded cb ∧
      outboundCalls (invoke defaultBridgeStoreUrl BehaviorMode.success 0 (some "sess-1")
        (some "http://localhost:3003/store")) = [cb] ∧
      cb.sessionId = "sess-1" ∧
      cb.targetUrl = rewriteUrlForDocker defaultBridgeStoreUrl "http://localhost:3003/store" ∧
      (defaultBridgeStoreUrl = defaultBridgeStoreUrl →
        cb.targetUrl = "http://localhost:3003/store") ∧
      (BehaviorMode.success = BehaviorMode.success → cb.returnCode = "NCP_OK" ∧
        cb.elmo = some (ElmoData.gzipBase64 sampleElmo) ∧ cb.returnMessage = none) ∧
      (BehaviorMode.success = BehaviorMode.error → cb.returnCode = "NCP_ERROR" ∧ cb.elmo = none ∧
        cb.returnMessage = some "An error occurred at the EMREX provider") ∧
      (BehaviorMode.success = BehaviorMode.no_records → cb.returnCode = "NCP_NO_RESULTS" ∧
        cb.elmo = none ∧
        cb.returnMessage = some "No matching records found for this learner") ∧
      (BehaviorMode.success = BehaviorMode.cancel → cb.returnCode = "NCP_CANCEL" ∧
        cb.elmo = none ∧ cb.returnMessage = some "User cancelled the EMREX flow") ∧
      (BehaviorMode.success = BehaviorMode.invalid_gzip → cb.returnCode = "NCP_OK" ∧
        cb.elmo = some (ElmoData.plainBase64 "this is not gzipped data") ∧
        cb.returnMessage = none) ∧
      (BehaviorMode.success = BehaviorMode.invalid_xml → cb.returnCode = "NCP_OK" ∧
        cb.elmo = some (ElmoData.gzipBase64 invalidElmoXml) ∧ cb.returnMessage = none) ∧
      (BehaviorMode.success = BehaviorMode.identity_mismatch → cb.returnCode = "NCP_OK" ∧
        cb.elmo = some (ElmoData.gzipBase64 mismatchedIdentityElmo) ∧ cb.returnMessage = none) ∧
      mismatchedIdentityElmo ≠ sampleElmo :=
  ⟨by decide, by decide, by decide,
    invoke_nontimeout_exactly_one_callback defaultBridgeStoreUrl BehaviorMode.success 0
      "sess-1" "http://localhost:3003/store" (by decide) (by decide) (by decide)⟩

/-- C2: in timeout mode with both parameters present, the redirect endpoint
takes the hang-forever branch: it never resolves (no response to the caller)
and never issues an outbound callback. -/
theorem invoke_timeout_never_responds (bridgeStoreUrl : String) (delay : Nat) (sid ru : String)
    (hsid : sid ≠ "") (hru : ru ≠ "") :
    invoke bridgeStoreUrl BehaviorMode.timeout delay (some sid) (some ru) = InvokeResult.hang ∧
    outboundCalls (invoke bridgeStoreUrl BehaviorMode.timeout delay (some sid) (some ru)) = [] ∧
    resolves (invoke bridgeStoreUrl BehaviorMode.timeout delay (some sid) (some ru)) = false := by
  simp [invoke, hsid, hru, outboundCalls, resolves]

/-- Witness for C2 at concrete parameters. -/
theorem invoke_timeout_never_responds_witness :
    "sess-2" ≠ "" ∧ "http://localhost:3003/store" ≠ "" ∧
    invoke defaultBridgeStoreUrl BehaviorMode.timeout 0 (some "sess-2")
      (some "http://localhost:3003/store") = InvokeResult.hang ∧
    outboundCalls (invoke defaultBridgeStoreUrl BehaviorMode.timeout 0 (some "sess-2")
      (some "http://localhost:3003/store")) = [] ∧
    resolves (invoke defaultBridgeStoreUrl BehaviorMode.timeout 0 (some "sess-2")
      (some "http://localhost:3003/store")) = false :=
  ⟨by decide, by decide,
    invoke_timeout_never_responds defaultBridgeStoreUrl 0 "sess-2"
      "http://localhost:3003/store" (by decide) (by decide)⟩

/-- The JavaScript falsiness of an optional query parameter: absent
(`undefined`) or the empty string. -/
def isFalsyParam (o : Option String) : Bool :=
  match o with
  | none => true
  | some s => s = ""

/-- C10: the missing-parameter check precedes the behavior-mode dispatch —
for every configured mode, including timeout, a request lacking (or carrying
an empty) sessionId or returnUrl gets the synchronous 400 reply
`{error: "Missing sessionId or returnUrl"}`, performs no outbound callback
and does not hang; the hang branch is reachable only with both parameters
present. -/
theorem invoke_missing_params_before_mode_dispatch (bridgeStoreUrl : String)
    (mode : BehaviorMode) (delay : Nat) (sessionId returnUrl : Option String)
    (h : isFalsyParam sessionId = true ∨ isFalsyParam returnUrl = true) :
    invoke bridgeStoreUrl mode delay sessionId returnUrl = InvokeResult.missingParams ∧
    badRequestError (invoke bridgeStoreUrl mode delay sessionId returnUrl) =
      some "Missing sessionId or returnUrl" ∧
    outboundCalls (invoke bridgeStoreUrl mode delay sessionId returnUrl) = [] ∧
    resolves (invoke bridgeStoreUrl mode delay sessionId returnUrl) = true := by
  cases sessionId with
  | none => cases returnUrl <;> simp [invoke, badRequestError, outboundCalls, resolves]
  | some s =>
    cases returnUrl with
    | none => simp [invoke, badRequestError, outboundCalls, resolves]
    | some r =>
      have hsr : s = "" ∨ r = "" := by simpa [isFalsyParam] using h
      simp [invoke, hsr, badRequestError, outboundCalls, resolves]

/-- Witness for C10: in timeout mode with a missing sessionId the endpoint
answers 400 instead of hanging. -/
theorem invoke_missing_params_before_mode_dispatch_witness :
    (isFalsyParam none = true ∨ isFalsyParam (some "http://localhost:3003/store") = true) ∧
    invoke defaultBridgeStoreUrl BehaviorMode.timeout 0 none
      (some "http://localhost:3003/store") = InvokeResult.missingParams ∧
    badRequestError (invoke defaultBridgeStoreUrl BehaviorMode.timeout 0 none
      (some "http://localhost:3003/store")) = some "Missing sessionId or returnUrl" ∧
    outboundCalls (invoke defaultBridgeStoreUrl BehaviorMode.timeout 0 none
      (some "http://localhost:3003/store")) = [] ∧
    resolves (invoke defaultBridgeStoreUrl BehaviorMode.timeout 0 none
      (some "http://localhost:3003/store")) = true :=
  ⟨Or.inl rfl,
    invoke_missing_params_before_mode_dispatch defaultBridgeStoreUrl BehaviorMode.timeout 0
      none (some "http://localhost:3003/store") (Or.inl rfl)⟩
/-- C7: setBehavior always succeeds and replies with the now-current
`{behavior, responseDelay}` pair (the handler has no error reply), and an
unrecognised mode string is silently ignored: the stored behavior stays
unchanged and the reply still reports the old mode without any error. -/
theorem setBehavior_returns_current_and_ignores_unknown :
    (∀ (st : SimState) (mode : Option String) (delay : Option Int),
      (setBehavior st mode delay).2 =
        ((setBehavior st mode delay).1.behavior, (setBehavior st mode delay).1.responseDelay)) ∧
    (∀ (st : SimState) (m : String) (delay : Option Int), modeOfString m = none →
      (setBehavior st (some m) delay).1.behavior = st.behavior ∧
      (setBehavior st (some m) delay).2.1 = st.behavior) := by
  constructor
  · intro st mode delay
    rfl
  · intro st m delay h
    cases delay <;> simp [setBehavior, h]

/-- Witness for C7: the unrecognised mode string `bogus` leaves the stored
mode `success` unchanged while the numeric delay is applied. -/
theorem setBehavior_returns_current_and_ignores_unknown_witness :
    modeOfString "bogus" = none ∧
    (setBehavior { behavior := BehaviorMode.success, responseDelay := 0 }
      (some "bogus") (some 5)).1.behavior = BehaviorMode.success ∧
    (setBehavior { behavior := BehaviorMode.success, responseDelay := 0 }
      (some "bogus") (some 5)).2.1 = BehaviorMode.success :=
  ⟨rfl,
    (setBehavior_returns_current_and_ignores_unknown.2
      { behavior := BehaviorMode.success, responseDelay := 0 } "bogus" (some 5) rfl).1,
    (setBehavior_returns_current_and_ignores_unknown.2
      { behavior := BehaviorMode.success, responseDelay := 0 } "bogus" (some 5) rfl).2⟩
theorem fallbackLoop_pure (esOk : EsQuery → List JValue) (beforeTs : String) :
    ∀ (l : List ExpectedLog) (logs : List JValue) (queries : List EsQuery),
      fallbackLoop (fun q => Except.ok (esOk q)) beforeTs l logs queries =
        Except.ok
          (logs ++ (l.map fun exp =>
              esOk (EsQuery.byEventAction exp.eventAction beforeTs 5)).flatten,
           queries ++ l.map fun exp => EsQuery.byEventAction exp.eventAction beforeTs 5)
  | [], logs, queries => by simp [fallbackLoop]
  | exp :: rest, logs, queries => by
    have hconcat :
        (if (esOk (EsQuery.byEventAction exp.eventAction beforeTs 5)).length > 0 then
            logs ++ esOk (EsQuery.byEventAction exp.eventAction beforeTs 5)
          else logs) =
          logs ++ esOk (EsQuery.byEventAction exp.eventAction beforeTs 5) := by
      cases h : esOk (EsQuery.byEventAction exp.eventAction beforeTs 5) <;> simp
    simp only [fallbackLoop, Bind.bind, Except.bind, hconcat,
      fallbackLoop_pure esOk beforeTs rest]
    simp [List.flatten, List.append_assoc]

/-- C3 (amended): in the QUERIED step, when the correlation-id query still
returns the empty sequence, the runner issues one queryByEventAction per
entry of the first three expected log entries (`expectedLogs.slice(0, 3)`),
each restricted to the `since` timestamp captured at trigger time, and
merges the results into the retrieved record set. -/
theorem queried_fallback_uses_first_three (esOk : EsQuery → List JValue)
    (conversationId beforeTs : String) (expectedLogs : List ExpectedLog)
    (h0 : esOk (EsQuery.byConversationId conversationId 5000) = []) :
    queriedStep (fun q => Except.ok (esOk q)) conversationId beforeTs expectedLogs =
      Except.ok
        (((expectedLogs.take 3).map fun exp =>
            esOk (EsQuery.byEventAction exp.eventAction beforeTs 5)).flatten,
         EsQuery.byConversationId conversationId 5000 ::
           (expectedLogs.take 3).map fun exp =>
             EsQuery.byEventAction exp.eventAction beforeTs 5) := by
  simp only [queriedStep, Bind.bind, Except.bind, h0]
  rw [fallbackLoop_pure esOk beforeTs (expectedLogs.take 3) [] _]
  simp

/-- Counterexample for C3 as stated: catalog path 1 declares nine expected
log entries, yet with an empty correlation-id answer the QUERIED step issues
only three per-event fallback queries (for the first three entries), not one
per expected entry. -/
theorem queried_fallback_not_one_query_per_entry :
    (testPaths.get ⟨0, by decide⟩).expectedLogs.length = 9 ∧
    queriedStep emptyEs "conv-0" "2026-01-01T00:00:00.000Z"
        (testPaths.get ⟨0, by decide⟩).expectedLogs =
      Except.ok ([],
        [EsQuery.byConversationId "conv-0" 5000,
         EsQuery.byEventAction "domibus_message_retrieval_started" "2026-01-01T00:00:00.000Z" 5,
         EsQuery.byEventAction "domibus_message_retrieval_completed" "2026-01-01T00:00:00.000Z" 5,
         EsQuery.byEventAction "oots_request_xml_validation_completed"
           "2026-01-01T00:00:00.000Z" 5]) :=
  ⟨by decide, rfl⟩

/-- Witness for C3 (amended) at a concrete one-entry catalog path and the
empty store. -/
theorem queried_fallback_uses_first_three_witness :
    queriedStep (fun q => Except.ok ((fun _ => ([] : List JValue)) q)) "conv-w" "ts-w"
        [{ eventAction := "evidence_request_received" }] =
      Except.ok ([],
        [EsQuery.byConversationId "conv-w" 5000,
         EsQuery.byEventAction "evidence_request_received" "ts-w" 5]) := by
  have h := queried_fallback_uses_first_three (fun _ => ([] : List JValue)) "conv-w" "ts-w"
    [{ eventAction := "evidence_request_received" }] rfl
  simpa using h
/-- Counterexample for C4 as stated: the catalog entry that sets the
simulator mode to identity_mismatch (path 11) expects no log entry whose
event.action is `identity_matching_completed`; the action string it expects
is `emrex_identity_matching_completed`. -/
theorem identity_mismatch_expected_action_counterexample :
    (testPaths.get ⟨7, by decide⟩).emrexBehavior = some "identity_mismatch" ∧
    ((testPaths.get ⟨7, by decide⟩).expectedLogs.all
      fun e => e.eventAction != "identity_matching_completed") = true ∧
    ((testPaths.get ⟨7, by decide⟩).expectedLogs.any
      fun e => e.eventAction == "emrex_identity_matching_completed") = true := by
  decide

/-- C4 (amended): every catalog entry that sets the simulator mode to
identity_mismatch expects a log record with event.action
`emrex_identity_matching_completed` and event.outcome `failure`, and an
`evidence_response_sent` record with event.outcome `failure`. -/
theorem identity_mismatch_expected_logs (p : TestPath) (hp : p ∈ testPaths)
    (hb : p.emrexBehavior = some "identity_mismatch") :
    (∃ e ∈ p.expectedLogs,
      e.eventAction = "emrex_identity_matching_completed" ∧ e.outcome = some "failure") ∧
    (∃ e ∈ p.expectedLogs,
      e.eventAction = "evidence_response_sent" ∧ e.outcome = some "failure") := by
  fin_cases hp <;> simp_all

/-- Witness for C4 (amended) at the concrete catalog entry of path 11. -/
theorem identity_mismatch_expected_logs_witness :
    (testPaths.get ⟨7, by decide⟩) ∈ testPaths ∧
    (testPaths.get ⟨7, by decide⟩).emrexBehavior = some "identity_mismatch" ∧
    (∃ e ∈ (testPaths.get ⟨7, by decide⟩).expectedLogs,
      e.eventAction = "emrex_identity_matching_completed" ∧ e.outcome = some "failure") ∧
    (∃ e ∈ (testPaths.get ⟨7, by decide⟩).expectedLogs,
      e.eventAction = "evidence_response_sent" ∧ e.outcome = some "failure") :=
  ⟨List.get_mem testPaths 7 (by decide), rfl,
    identity_mismatch_expected_logs (testPaths.get ⟨7, by decide⟩)
      (List.get_mem testPaths 7 (by decide)) rfl⟩
theorem runTest_trigger_error (path : TestPath) (env : RunEnv) (e : String)
    (hsetup : env.setupResult = Except.ok ()) (htrig : env.triggerResult = Except.error e) :
    runTest path env =
      { path := "Path " ++ toString path.id ++ ": " ++ path.name
        description := path.description
        passed := false
        errors := [e]
        logsFound := []
        duration := 0 } := by
  have hsteps : runTestSteps path env = Except.error e := by
    unfold runTestSteps
    rw [hsetup]
    simp [Bind.bind, Except.bind, htrig]
  unfold runTest
  rw [hsteps]

/-- C9: an exception thrown inside a trigger (or query) step is caught at the
runTest boundary and becomes a TestResult with a single-element error list
and passed = false; the failure stays local — the loop of main still yields
one result per catalog entry, every other entry is executed on its own
environment, and the aggregate exit code reports the failure. -/
theorem runner_isolates_trigger_exception (paths : List TestPath) (envOf : TestPath → RunEnv)
    (i : Nat) (hi : i < paths.length) (e : String)
    (hsetup : (envOf (paths.get ⟨i, hi⟩)).setupResult = Except.ok ())
    (htrig : (envOf (paths.get ⟨i, hi⟩)).triggerResult = Except.error e) :
    (runAll paths envOf).length = paths.length ∧
    (runTest (paths.get ⟨i, hi⟩) (envOf (paths.get ⟨i, hi⟩))).passed = false ∧
    (runTest (paths.get ⟨i, hi⟩) (envOf (paths.get ⟨i, hi⟩))).errors = [e] ∧
    (∀ (j : Nat) (hj : j < paths.length),
      (runAll paths envOf).get? j =
        some (runTest (paths.get ⟨j, hj⟩) (envOf (paths.get ⟨j, hj⟩)))) ∧
    exitCode (runAll paths envOf) = 1 := by
  have hrun := runTest_trigger_error (paths.get ⟨i, hi⟩) (envOf (paths.get ⟨i, hi⟩)) e
    hsetup htrig
  have hpassed : (runTest (paths.get ⟨i, hi⟩) (envOf (paths.get ⟨i, hi⟩))).passed = false := by
    rw [hrun]
  have herrs : (runTest (paths.get ⟨i, hi⟩) (envOf (paths.get ⟨i, hi⟩))).errors = [e] := by
    rw [hrun]
  have hmem : runTest (paths.get ⟨i, hi⟩) (envOf (paths.get ⟨i, hi⟩)) ∈ runAll paths envOf :=
    List.mem_map_of_mem _ (List.get_mem paths i hi)
  have hfilter : runTest (paths.get ⟨i, hi⟩) (envOf (paths.get ⟨i, hi⟩)) ∈
      (runAll paths envOf).filter fun r => !r.passed :=
    List.mem_filter.mpr ⟨hmem, by rw [hpassed]; rfl⟩
  have hpos : 0 < failedCount (runAll paths envOf) :=
    List.length_pos.mpr (List.ne_nil_of_mem hfilter)
  refine ⟨by simp [runAll], hpassed, herrs, ?_, ?_⟩
  · intro j hj
    simp only [runAll, List.get?_eq_getElem?, List.getElem?_map]
    rw [List.getElem?_eq_getElem (by simpa using hj)]
    simp
  · unfold exitCode
    rw [if_pos hpos]

/-- Witness for C9: running the whole catalog in an environment whose
trigger always rejects yields one failed result per path and exit code 1. -/
theorem runner_isolates_trigger_exception_witness :
    throwingEnv.setupResult = Except.ok () ∧
    throwingEnv.triggerResult = Except.error "Error: connect ECONNREFUSED" ∧
    (runAll testPaths fun _ => throwingEnv).length = testPaths.length ∧
    (runTest (testPaths.get ⟨0, by decide⟩) throwingEnv).passed = false ∧
    (runTest (testPaths.get ⟨0, by decide⟩) throwingEnv).errors =
      ["Error: connect ECONNREFUSED"] ∧
    exitCode (runAll testPaths fun _ => throwingEnv) = 1 := by
  have h := runner_isolates_trigger_exception testPaths (fun _ => throwingEnv) 0 (by decide)
    "Error: connect ECONNREFUSED" rfl rfl
  exact ⟨rfl, rfl, h.1, h.2.1, h.2.2.1, h.2.2.2.2⟩
